import Mathlib

/-!
Verification development for the iagent repository: a shallow embedding of
the CLI dispatch logic (src/src/iagent/cli.py) and of the components of the
log-analysis pipeline and agent loop that are specified but whose modules are
not present in the source tree (those definitions are marked
"Modelled from the spec").
-/

namespace IAgent

/-! ## Tools and the tool registry (cli.py: create_tools, get_tool) -/

/-- A tool instance: the registry maps names to callable tool objects.
The concrete tool variants live in the missing module iagent.tools, so only
the capability interface (a name) is embedded here. -/
structure Tool where
  name : String
deriving DecidableEq, Repr

/-- One iteration of the create_tools loop body: a successful lookup
appends the instance, a failed one appends a warning message instead. -/
def createToolsStep (getTool : String → Option Tool)
    (acc : List Tool × List String) (toolName : String) : List Tool × List String :=
  match getTool toolName with
  | some t => (acc.1 ++ [t], acc.2)
  | none => (acc.1, acc.2 ++ ["Tool not found: " ++ toolName])

/-- Embedding of cli.py create_tools (lines 98-112): iterate over the
requested names, look each up via the registry function getTool, append the
instance when the lookup succeeds, and otherwise record a warning message;
the special parse_logs/log_file branch of the source is a no-op (pass).
Returns the tool instances together with the emitted warnings. -/
def createTools (toolNames : List String) (getTool : String → Option Tool) :
    List Tool × List String :=
  toolNames.foldl (createToolsStep getTool) ([], [])

/-! ## Executor (constructed in cli.py line 152; behaviour of the missing
module iagent.executor is modelled from the spec) -/

/-- Modelled from the spec: LocalPythonExecutor (module iagent.executor is
absent from the source tree). The only construction-time configuration is the
single dry_run flag; the structure is immutable, so the mode is fixed for the
instance lifetime. -/
structure LocalPythonExecutor where
  dry_run : Bool
deriving DecidableEq, Repr

/-- Modelled from the spec: the result of Executor.execute — a status, the
captured stdout (none when nothing was executed), and the echoed code. -/
structure ExecResult where
  status : String
  stdout : Option String
  result : String
deriving DecidableEq, Repr

/-- Modelled from the spec: Executor.execute. In dry-run mode it returns a
preview containing the code and a notice that it was not run, performing no
side effects (the actual interpreter, passed as runPython, is not consulted);
otherwise it runs the code against the restricted context and captures
stdout. -/
def executorExecute (ex : LocalPythonExecutor) (codeText : String)
    (runPython : String → String) : ExecResult :=
  if ex.dry_run then
    { status := "preview, code was not run", stdout := none, result := codeText }
  else
    { status := "executed", stdout := some (runPython codeText), result := codeText }

/-! ## Model-type and agent dispatch (cli.py: create_model, run_agent) -/

/-- Mirror of Python str.lower() (ASCII case folding). -/
def pyLower (s : String) : String :=
  { data := s.data.map Char.toLower }

/-- Embedding of cli.py create_model (lines 75-90): the recognised provider
names, compared case-insensitively. -/
def validModelType (modelType : String) : Bool :=
  pyLower modelType == "openai" || pyLower modelType == "litellm" ||
  pyLower modelType == "huggingface" || pyLower modelType == "ollama" ||
  pyLower modelType == "bedrock"

/-- The agent type the loop is actually built with (cli.py lines 144-147):
supplying one or more tool names overrides the requested agent type to the
tool-calling one before any agent is constructed. -/
def effectiveAgentType (agentType : String) (toolNames : List String) : String :=
  if toolNames ≠ [] then "tool" else agentType

/-- The three agent classes the CLI can construct. -/
inductive AgentKind where
  | codeAgent
  | toolCallingAgent
  | triageAgent
deriving DecidableEq, Repr

/-- Observable outcome of one run_agent call: the process exit code, the
error line printed to standard output (if any), whether the agent loop (and
hence any model inference call) was ever entered, and which agent class and
executor were constructed. -/
structure RunOutcome where
  exitCode : Nat
  printedError : Option String
  modelCalled : Bool
  builtAgent : Option AgentKind
  builtExecutor : Option LocalPythonExecutor
deriving DecidableEq, Repr

/-- Embedding of cli.py run_agent (lines 115-251). Control flow in source
order: create_model validates the model type (raising ValueError on an
unknown one); create_tools builds the instances; a non-empty tool-name list
overrides agent_type to tool before any agent is constructed; the code
branch builds a LocalPythonExecutor with dry_run = not execute; an
unrecognised agent type raises ValueError; only then is agent.run invoked
(abstracted as agentRun, which may fail). The enclosing try/except catches
every exception, prints its message, and exits with code 1; a run that
completes exits 0. -/
def runAgent (modelType agentType : String) (toolNames : List String)
    (execute : Bool) (getTool : String → Option Tool)
    (agentRun : AgentKind → Except String String) : RunOutcome :=
  if !validModelType modelType then
    { exitCode := 1, printedError := some ("Error: Unknown model type: " ++ modelType),
      modelCalled := false, builtAgent := none, builtExecutor := none }
  else
    let _toolInstances := (createTools toolNames getTool).1
    if pyLower (effectiveAgentType agentType toolNames) == "code" then
      let executor : LocalPythonExecutor := { dry_run := !execute }
      match agentRun .codeAgent with
      | .ok _ =>
        { exitCode := 0, printedError := none, modelCalled := true,
          builtAgent := some .codeAgent, builtExecutor := some executor }
      | .error e =>
        { exitCode := 1, printedError := some ("Error: " ++ e), modelCalled := true,
          builtAgent := some .codeAgent, builtExecutor := some executor }
    else if pyLower (effectiveAgentType agentType toolNames) == "tool" then
      match agentRun .toolCallingAgent with
      | .ok _ =>
        { exitCode := 0, printedError := none, modelCalled := true,
          builtAgent := some .toolCallingAgent, builtExecutor := none }
      | .error e =>
        { exitCode := 1, printedError := some ("Error: " ++ e), modelCalled := true,
          builtAgent := some .toolCallingAgent, builtExecutor := none }
    else if pyLower (effectiveAgentType agentType toolNames) == "triage" then
      match agentRun .triageAgent with
      | .ok _ =>
        { exitCode := 0, printedError := none, modelCalled := true,
          builtAgent := some .triageAgent, builtExecutor := none }
      | .error e =>
        { exitCode := 1, printedError := some ("Error: " ++ e), modelCalled := true,
          builtAgent := some .triageAgent, builtExecutor := none }
    else
      { exitCode := 1,
        printedError := some ("Error: Unknown agent type: " ++
          effectiveAgentType agentType toolNames),
        modelCalled := false, builtAgent := none, builtExecutor := none }

/-! ## Final-answer formatting (cli.py: _format_final_answer, lines 20-63)

The Python function works on str; the embedding works on List Char with
helpers mirroring the str methods and the two regular expressions used. -/

/-- The whitespace class of Python's str.strip and of the regex class \s
(ASCII range): space, tab, newline, carriage return, vertical tab, form
feed. -/
def isPySpace (c : Char) : Bool :=
  c == ' ' || c == '\t' || c == '\n' || c == '\r' ||
  c == Char.ofNat 11 || c == Char.ofNat 12

/-- Substring containment, mirroring Python's infix test (needle in hay). -/
def listContainsSub (needle : List Char) : List Char → Bool
  | [] => needle.isEmpty
  | c :: rest => needle.isPrefixOf (c :: rest) || listContainsSub needle rest

/-- Mirror of Python str.strip(): drop leading and trailing whitespace. -/
def pyStripChars (cs : List Char) : List Char :=
  ((cs.dropWhile isPySpace).reverse.dropWhile isPySpace).reverse

/-- Fuel-driven splitter body: each step consumes at least one character of
the input and one unit of fuel, so fuel equal to the input length never runs
out before the input does and the zero-fuel fallback is unreachable. -/
def pySplitListAux (sep : List Char) : Nat → List Char → List (List Char)
  | _, [] => [[]]
  | 0, cs => [cs]
  | fuel + 1, c :: rest =>
    if !sep.isEmpty && sep.isPrefixOf (c :: rest) then
      [] :: pySplitListAux sep fuel (rest.drop (sep.length - 1))
    else
      match pySplitListAux sep fuel rest with
      | [] => [[c]]
      | l :: ls => (c :: l) :: ls

/-- Mirror of Python str.split(sep) for a non-empty separator: split at each
left-to-right non-overlapping occurrence of sep, keeping empty pieces. -/
def pySplitList (sep : List Char) (cs : List Char) : List (List Char) :=
  pySplitListAux sep cs.length cs

/-- Fuel-driven scanner body for the leftmost match of the regex (\d+\.);
each step consumes at least one character and one unit of fuel, so fuel
equal to the input length makes the zero-fuel fallback unreachable. -/
def findNumDotAux : Nat → List Char → Option (List Char × List Char × List Char)
  | _, [] => none
  | 0, _ => none
  | fuel + 1, c :: rest =>
    if c.isDigit then
      let run := c :: rest.takeWhile Char.isDigit
      let after := rest.dropWhile Char.isDigit
      match after with
      | '.' :: post => some ([], run ++ ['.'], post)
      | _ =>
        match findNumDotAux fuel after with
        | some (pre, m, post) => some (run ++ pre, m, post)
        | none => none
    else
      match findNumDotAux fuel rest with
      | some (pre, m, post) => some (c :: pre, m, post)
      | none => none

/-- Leftmost match of the regex (\d+\.): returns (text before the match, the
matched digits-plus-dot, text after), or none when no match exists. A maximal
digit run not followed by a dot cannot contain a match start, so the scan
resumes after it. -/
def findNumDot (cs : List Char) : Option (List Char × List Char × List Char) :=
  findNumDotAux cs.length cs

/-- Mirror of re.split with the capturing pattern (\d+\.), fuel-driven: the
result alternates unmatched text and captured groups. Each successful match
consumes at least two characters, so fuel equal to the input length never
runs out before the scan finishes. -/
def pyResplitAux : Nat → List Char → List (List Char)
  | 0, cs => [cs]
  | fuel + 1, cs =>
    match findNumDot cs with
    | none => [cs]
    | some (pre, m, post) => pre :: m :: pyResplitAux fuel post

/-- re.split of the pattern (\d+\.) over a string, as used on line 37 of
cli.py. -/
def pyResplit (cs : List Char) : List (List Char) :=
  pyResplitAux cs.length cs

/-- Given the text following a newline, the suffix left after the last
newline inside the maximal whitespace run at its front, or none when that
run contains no newline. This is how the greedy regex fragment \s*\n extends
a match that started at a newline. -/
def findLastNl : List Char → Option (List Char)
  | [] => none
  | c :: rest =>
    if isPySpace c then
      match findLastNl rest with
      | some r => some r
      | none => if c == '\n' then some rest else none
    else none

/-- Fuel-driven replacement body for the blank-run collapse; a match always
consumes strictly more characters than fuel, so fuel equal to the input
length makes the zero-fuel fallback unreachable. -/
def pyCollapseAux : Nat → List Char → List Char
  | _, [] => []
  | 0, cs => cs
  | fuel + 1, c :: rest =>
    if c == '\n' then
      match findLastNl rest with
      | some rest2 => '\n' :: '\n' :: pyCollapseAux fuel rest2
      | none => c :: pyCollapseAux fuel rest
    else c :: pyCollapseAux fuel rest

/-- Mirror of re.sub with pattern \n\s*\n and replacement of two newlines
(cli.py line 61): left-to-right non-overlapping replacement, each match
being a newline followed greedily by whitespace up to a final newline. -/
def pyCollapse (cs : List Char) : List Char :=
  pyCollapseAux cs.length cs

/-- Join a list of lines with newlines, mirroring the join on line 58 of
cli.py. -/
def joinLines : List (List Char) → List Char
  | [] => []
  | [l] => l
  | l :: ls => l ++ '\n' :: joinLines ls

/-- The numbered-item pair loop of cli.py lines 39-44: items are consumed
two at a time; a pair contributes a line exactly when both stripped parts
are non-empty, the line being a newline, the first part, a space, and the
second part. A trailing unpaired item is ignored. -/
def numberedPairs : List (List Char) → List (List Char)
  | a :: b :: rest =>
    (if !(pyStripChars a).isEmpty && !(pyStripChars b).isEmpty then
      [['\n'] ++ pyStripChars a ++ [' '] ++ pyStripChars b]
    else []) ++ numberedPairs rest
  | _ => []

/-- The numbered-list branch of _format_final_answer (cli.py lines 29-46):
split on the literal substring of the digit one and a dot, keep the stripped
text before the first occurrence, re-prefix the second piece with that
substring, re-split it on the (\d+\.) pattern, and walk the items in
pairs. When the split produced a single piece the answer is kept whole. -/
def numberedLines (answer : List Char) : List (List Char) :=
  let parts := pySplitList ['1', '.'] answer
  if parts.length > 1 then
    pyStripChars (parts.headD []) ::
      numberedPairs (pyResplit (['1', '.'] ++ parts.getD 1 []))
  else [answer]

/-- The sentence branch of _format_final_answer (cli.py lines 50-55),
mirroring the indexed enumerate loop: split on dot-space, and append a dot
to every piece except the one at the last index. -/
def sentenceLinesPy (answer : List Char) : List (List Char) :=
  let sentences := pySplitList ['.', ' '] answer
  (List.range sentences.length).map (fun i =>
    if i = sentences.length - 1 then sentences.getD i []
    else sentences.getD i [] ++ ['.'])

/-- Splitting into one sentence per line as the specification words it:
every piece of the dot-space split becomes a line, and each non-final piece
is re-suffixed with a dot. -/
def resuffixSentences : List (List Char) → List (List Char)
  | [] => []
  | [s] => [s]
  | s :: rest => (s ++ ['.']) :: resuffixSentences rest

/-- Embedding of cli.py _format_final_answer (lines 20-63): an empty answer
is returned unchanged; when both the one-dot and two-dot substrings occur
the numbered-list branch builds the lines, otherwise the sentence branch
does; the joined lines then pass through the blank-run collapse. -/
def formatFinalAnswer (answer : String) : String :=
  if answer = "" then answer
  else
    { data := pyCollapse (joinLines (
        if listContainsSub ['1', '.'] answer.data &&
           listContainsSub ['2', '.'] answer.data then
          numberedLines answer.data
        else
          sentenceLinesPy answer.data)) }

/-! ## Log analysis pipeline

The modules implementing the parse_logs tool (LogWindowExtractor,
PatternAnalyzer, AnalysisAggregator, RecommendationBridge) are absent from
the source tree; only their callers (the manual test scripts) are present.
The definitions below are therefore modelled from the spec, with the JSON
field names taken from the accesses in the test scripts. -/

/-- Modelled from the spec: a parsed log record (module iagent.tools is
absent). Timestamps are seconds as integers. -/
structure LogRecord where
  timestamp : Int
  source_format : String
  raw : String
  status_code : Option Nat
  client_identifier : Option String
deriving DecidableEq, Repr

/-- A JSON value, used to state the shape of the parse_logs output object. -/
inductive Json where
  | str (s : String)
  | num (n : Int)
  | arr (elems : List Json)
  | obj (fields : List (String × Json))

/-- First value bound to a key in a JSON object field list. -/
def lookupField (fields : List (String × Json)) (key : String) : Option Json :=
  match fields with
  | [] => none
  | (k, v) :: rest => if k = key then some v else lookupField rest key

/-- Maximum of two integers, written out so that it reduces in the
kernel. -/
def intMax (a b : Int) : Int :=
  if a ≤ b then b else a

/-- Modelled from the spec: the maximum timestamp observed anywhere in the
full input (not wall-clock now); 0 for an empty record list, which the
pipeline never reaches because zero parsed lines fail earlier. -/
def latestTimestamp : List LogRecord → Int
  | [] => 0
  | r :: rest => (rest.map (fun s => s.timestamp)).foldl intMax r.timestamp

/-- Modelled from the spec: LogWindowExtractor's window filter — keep the
records whose timestamp falls within the trailing window
of windowMinutes minutes ending at the latest observed timestamp. -/
def extractWindow (records : List LogRecord) (windowMinutes : Nat) : List LogRecord :=
  let latest := latestTimestamp records
  records.filter (fun r =>
    decide (latest - (windowMinutes : Int) * 60 ≤ r.timestamp) &&
    decide (r.timestamp ≤ latest))

/-- Modelled from the spec: one matched security signature with its match
count (count is at least 1 by construction in securityEvents). -/
structure SecurityEvent where
  pattern : String
  count : Nat
deriving DecidableEq, Repr

/-- Modelled from the spec: the fixed, ordered list of security signature
rules (failed authentication bursts, repeated 404s against sensitive paths,
preauth connection closures, known scanner user agents), each matching on a
record's raw text or status code. -/
def securityRules : List (String × (LogRecord → Bool)) :=
  [("failed_authentication_burst",
      fun r => listContainsSub "Failed password".data r.raw.data),
   ("repeated_404_sensitive_path",
      fun r => r.status_code == some 404),
   ("preauth_connection_closed",
      fun r => listContainsSub "[preauth]".data r.raw.data),
   ("scanner_user_agent",
      fun r => listContainsSub "sqlmap".data r.raw.data ||
               listContainsSub "Nikto".data r.raw.data)]

/-- Modelled from the spec: each rule that matches at least one record
yields one SecurityEvent carrying its match count. -/
def securityEvents (records : List LogRecord) : List SecurityEvent :=
  securityRules.filterMap (fun rule =>
    let n := (records.filter rule.2).length
    if n ≥ 1 then some { pattern := rule.1, count := n } else none)

/-- Modelled from the spec: total matched security events in the window. -/
def totalSecurityEvents (records : List LogRecord) : Nat :=
  ((securityEvents records).map (fun e => e.count)).sum

/-- Modelled from the spec: the fixed threat-level thresholds — 0 events is
none, 1 to 4 is low, 5 to 19 is medium, 20 or more is high. -/
def threatLevel (totalEvents : Nat) : String :=
  if totalEvents = 0 then "none"
  else if totalEvents < 5 then "low"
  else if totalEvents < 20 then "medium"
  else "high"

/-- Rank of a threat level under the ordering none < low < medium < high
(used to state monotonicity; unknown labels rank above all). -/
def levelRank (level : String) : Nat :=
  if level = "none" then 0
  else if level = "low" then 1
  else if level = "medium" then 2
  else if level = "high" then 3
  else 4

/-- Modelled from the spec: count of records whose status code lies in a
decade range (4xx or 5xx). -/
def countStatusRange (records : List LogRecord) (lo hi : Nat) : Nat :=
  (records.filter (fun r =>
    match r.status_code with
    | some s => decide (lo ≤ s) && decide (s < hi)
    | none => false)).length

/-- Modelled from the spec: a rate as count / total × 100, kept in
hundredths of a percent to model rounding to 2 decimals in integers. -/
def ratePercentHundredths (count total : Nat) : Int :=
  if total = 0 then 0 else (count * 10000) / total

/-- Modelled from the spec: the error_analysis object. When no record in
the window carries an HTTP status code it is a single message placeholder;
otherwise it carries the 4xx and 5xx counts and rates (field names as read
by src/test_parse_logs_detailed.py lines 40-44). -/
def errorAnalysisFields (records : List LogRecord) : List (String × Json) :=
  let withStatus := records.filter (fun r => r.status_code.isSome)
  if withStatus.length = 0 then
    [("message", .str "No HTTP status codes found in log entries")]
  else
    [("error_4xx", .num (countStatusRange records 400 500)),
     ("error_5xx", .num (countStatusRange records 500 600)),
     ("error_4xx_rate", .num (ratePercentHundredths (countStatusRange records 400 500) records.length)),
     ("error_5xx_rate", .num (ratePercentHundredths (countStatusRange records 500 600) records.length))]

/-- Modelled from the spec: the security_analysis object (field names as
read by the test scripts). -/
def securityAnalysisFields (records : List LogRecord) : List (String × Json) :=
  [("threat_level", .str (threatLevel (totalSecurityEvents records))),
   ("total_security_events", .num (totalSecurityEvents records)),
   ("security_events", .arr ((securityEvents records).map (fun e =>
      .obj [("pattern", .str e.pattern), ("count", .num e.count)])))]

/-- Modelled from the spec: per-minute request counts over the window,
bucketed by timestamp divided by 60. -/
def minuteCounts (records : List LogRecord) : List Nat :=
  ((records.map (fun r => r.timestamp / 60)).dedup).map (fun m =>
    (records.filter (fun r => decide (r.timestamp / 60 = m))).length)

/-- Modelled from the spec: trend classification comparing the first half
of the per-minute counts to the second half with a 10 percent relative
threshold. -/
def requestTrend (counts : List Nat) : String :=
  let h := counts.length / 2
  let first := (counts.take h).sum
  let second := (counts.drop h).sum
  if 10 * second > 11 * first then "increasing"
  else if 10 * first > 11 * second then "decreasing"
  else "stable"

/-- Modelled from the spec: the performance_analysis object (field names as
read by the test scripts). -/
def performanceAnalysisFields (records : List LogRecord) : List (String × Json) :=
  let counts := minuteCounts records
  [("request_trend", .str (requestTrend counts)),
   ("peak_requests_per_minute", .num (counts.foldl max 0)),
   ("average_requests_per_minute", .num (ratePercentHundredths counts.sum (counts.length * 100)))]

/-- Modelled from the spec: the summary object — total entries, entries per
minute as total over duration, and the distinct source formats observed
(field names as read by the test scripts). -/
def summaryFields (records : List LogRecord) (windowMinutes : Nat) : List (String × Json) :=
  [("total_entries", .num records.length),
   ("entries_per_minute", .num (ratePercentHundredths records.length (windowMinutes * 100))),
   ("log_types", .arr (((records.map (fun r => r.source_format)).dedup).map .str))]

/-- Modelled from the spec: the analysis_window object. -/
def analysisWindowFields (records : List LogRecord) (windowMinutes : Nat) : List (String × Json) :=
  [("start", .num (latestTimestamp records - (windowMinutes : Int) * 60)),
   ("end", .num (latestTimestamp records)),
   ("duration_minutes", .num windowMinutes)]

/-- Modelled from the spec: the AnalysisReport — structural fields frozen by
the aggregator, recommendations appended afterwards by the bridge. -/
structure AnalysisReport where
  summary : List (String × Json)
  analysis_window : List (String × Json)
  error_analysis : List (String × Json)
  security_analysis : List (String × Json)
  performance_analysis : List (String × Json)
  devops_recommendations : List String

/-- Modelled from the spec: AnalysisAggregator — build the structural report
from the windowed records, with recommendations still empty. -/
def buildStructuralReport (records : List LogRecord) (windowMinutes : Nat) : AnalysisReport :=
  { summary := summaryFields records windowMinutes,
    analysis_window := analysisWindowFields records windowMinutes,
    error_analysis := errorAnalysisFields records,
    security_analysis := securityAnalysisFields records,
    performance_analysis := performanceAnalysisFields records,
    devops_recommendations := [] }

/-- Modelled from the spec: the prompt embedding the structured report sent
to the model provider. -/
def buildPrompt (_report : AnalysisReport) : String :=
  "Analyze this log report and provide DevOps recommendations"

/-- Modelled from the spec: split the raw provider response into
recommendation sections on contiguous blank lines. -/
def splitRecommendations (response : String) : List String :=
  response.splitOn "\n\n"

/-- Modelled from the spec: RecommendationBridge — call the provider once;
on success fold the split response into devops_recommendations, on provider
failure keep the structural report and degrade to a single explanatory
entry. -/
def recommendationBridge (report : AnalysisReport)
    (provider : String → Except String String) : AnalysisReport :=
  match provider (buildPrompt report) with
  | .ok response =>
    { report with devops_recommendations := splitRecommendations response }
  | .error e =>
    { report with devops_recommendations :=
        ["Could not generate recommendations: " ++ e] }

/-- Modelled from the spec: serialise a report as the ordered field list of
the top-level JSON object returned by parse_logs. -/
def reportToFields (r : AnalysisReport) : List (String × Json) :=
  [("summary", .obj r.summary),
   ("analysis_window", .obj r.analysis_window),
   ("error_analysis", .obj r.error_analysis),
   ("security_analysis", .obj r.security_analysis),
   ("performance_analysis", .obj r.performance_analysis),
   ("devops_recommendations", .arr (r.devops_recommendations.map .str))]

/-- The records parsed from the raw text: one parse attempt per line, with
unparsable lines skipped. The per-format line parsers live in the missing
module, so they are abstracted as the parseLine argument keyed by the
declared format. -/
def parsedRecords (parseLine : String → String → Option LogRecord)
    (logType raw : String) : List LogRecord :=
  ((pySplitList ['\n'] raw.data).map String.mk).filterMap (parseLine logType)

/-- The records AnalysisAggregator retains: the parsed records filtered to
the trailing window. -/
def aggregatorRecords (parseLine : String → String → Option LogRecord)
    (logType raw : String) (windowMinutes : Nat) : List LogRecord :=
  extractWindow (parsedRecords parseLine logType raw) windowMinutes

/-- Modelled from the spec: parse_logs.execute — parse, fail with
NoValidLogLines when zero lines parse, otherwise window, aggregate, append
recommendations, and return the top-level JSON object (represented by its
ordered field list). -/
def parseLogsExecute (parseLine : String → String → Option LogRecord)
    (raw : String) (windowMinutes : Nat) (logType : String)
    (provider : String → Except String String) :
    Except String (List (String × Json)) :=
  if (parsedRecords parseLine logType raw).isEmpty then
    .error "NoValidLogLines: no valid log entries found"
  else
    .ok (reportToFields
      (recommendationBridge
        (buildStructuralReport
          (aggregatorRecords parseLine logType raw windowMinutes) windowMinutes)
        provider))

/-! ## Agent loop (module iagent.agents is absent; modelled from the spec) -/

/-- Modelled from the spec: the model's parsed output for one step — either
a final-answer marker or an action (tool call / code block) to execute. -/
inductive ModelOutput where
  | finalAnswer (text : String)
  | action (text : String)
deriving DecidableEq, Repr

/-- Modelled from the spec: one AgentStep of a run's trace. -/
structure AgentStep where
  step_index : Nat
  model_output : ModelOutput
  observation : String
  is_final : Bool
deriving DecidableEq, Repr

/-- Modelled from the spec: the terminal outcome of a run — a genuine final
answer or the step-budget-exhausted marker, distinguishable by
construction. -/
inductive RunResultKind where
  | finalAnswer (answer : String)
  | stepBudgetExhausted
deriving DecidableEq, Repr

/-- Modelled from the spec: AgentRunResult — the outcome plus the ordered
step trace. -/
structure AgentRunResult where
  outcome : RunResultKind
  steps : List AgentStep
deriving DecidableEq, Repr

/-- Modelled from the spec: the bounded step loop. The model is invoked on
the running trace; a final-answer marker terminates with that answer, an
action is executed and its observation appended, and when the remaining
budget hits zero the loop forcibly terminates with the exhausted marker. -/
def agentLoopGo (model : List AgentStep → ModelOutput)
    (execObservation : String → String) :
    Nat → Nat → List AgentStep → AgentRunResult
  | 0, _, trace => { outcome := .stepBudgetExhausted, steps := trace }
  | fuel + 1, idx, trace =>
    match model trace with
    | .finalAnswer t =>
      { outcome := .finalAnswer t,
        steps := trace ++ [{ step_index := idx, model_output := .finalAnswer t,
                             observation := t, is_final := true }] }
    | .action a =>
      agentLoopGo model execObservation fuel (idx + 1)
        (trace ++ [{ step_index := idx, model_output := .action a,
                     observation := execObservation a, is_final := false }])

/-- Modelled from the spec: AgentLoop.run with a step budget of maxSteps,
starting from an empty trace. -/
def runAgentLoop (model : List AgentStep → ModelOutput)
    (execObservation : String → String) (maxSteps : Nat) : AgentRunResult :=
  agentLoopGo model execObservation maxSteps 0 []

/-! ## Concrete instances used to witness the hypotheses of the theorems -/

/-- A model that never emits a final-answer marker. -/
def alwaysActionModel : List AgentStep → ModelOutput :=
  fun _ => .action "web_search"

/-- A trivial observation function. -/
def constObservation : String → String :=
  fun _ => "observation"

/-- A registry lookup that resolves only the name web_search. -/
def sampleGetTool : String → Option Tool :=
  fun name => if name = "web_search" then some { name := "web_search" } else none

/-- An agent-run stub that always succeeds. -/
def okAgentRun : AgentKind → Except String String :=
  fun _ => .ok "done"

/-- An agent-run stub that always fails with a provider error. -/
def failAgentRun : AgentKind → Except String String :=
  fun _ => .error "ProviderError: backend unreachable"

/-- A provider stub that always fails, for the bridge degradation witness. -/
def failingProvider : String → Except String String :=
  fun _ => .error "rate limit"

/-- Decimal digits to a number, for the witness line parser. -/
def digitsToNat (cs : List Char) : Option Nat :=
  if !cs.isEmpty && cs.all Char.isDigit then
    some (cs.foldl (fun a c => a * 10 + (c.toNat - 48)) 0)
  else none

/-- A line parser stub for the pipeline witnesses: a line of the form
SSS,TTT parses to a record with status code SSS and timestamp TTT, a bare
TTT parses to a record without a status code, and other lines fail to
parse. -/
def sampleParseLine : String → String → Option LogRecord :=
  fun logType line =>
    match pySplitList [','] line.data with
    | [s, t] =>
      match digitsToNat s, digitsToNat t with
      | some sv, some tv =>
        some { timestamp := tv, source_format := logType, raw := line,
               status_code := some sv, client_identifier := none }
      | _, _ => none
    | [t] =>
      match digitsToNat t with
      | some tv =>
        some { timestamp := tv, source_format := logType, raw := line,
               status_code := none, client_identifier := none }
      | none => none
    | _ => none

/-- A sample report with distinctive structural fields, for the bridge
witness. -/
def sampleReport : AnalysisReport :=
  { summary := [("total_entries", .num 7)],
    analysis_window := [("duration_minutes", .num 10)],
    error_analysis := [("message", .str "No HTTP status codes found in log entries")],
    security_analysis := [("threat_level", .str "none")],
    performance_analysis := [("request_trend", .str "stable")],
    devops_recommendations := [] }

/-! ## Supporting lemmas -/

theorem createTools_foldl (getTool : String → Option Tool)
    (toolNames : List String) (acc : List Tool × List String) :
    toolNames.foldl (createToolsStep getTool) acc =
      (acc.1 ++ toolNames.filterMap getTool,
       acc.2 ++ (toolNames.filter (fun n => (getTool n).isNone)).map
         (fun n => "Tool not found: " ++ n)) := by
  induction toolNames generalizing acc with
  | nil => simp
  | cons n rest ih =>
    simp only [List.foldl_cons, List.filterMap_cons, List.filter_cons]
    cases hg : getTool n with
    | some t => simp [createToolsStep, hg, ih]
    | none => simp [createToolsStep, hg, ih]

theorem le_foldl_intMax (a : Int) (l : List Int) : a ≤ l.foldl intMax a := by
  induction l generalizing a with
  | nil => exact le_refl a
  | cons x xs ih =>
    refine le_trans ?_ (ih (intMax a x))
    unfold intMax
    split <;> simp_all

theorem mem_le_foldl_intMax (x a : Int) (l : List Int) (hx : x ∈ l) :
    x ≤ l.foldl intMax a := by
  induction l generalizing a with
  | nil => cases hx
  | cons y ys ih =>
    rcases List.mem_cons.mp hx with h | h
    · subst h
      refine le_trans ?_ (le_foldl_intMax (intMax a x) ys)
      unfold intMax
      split <;> omega
    · exact ih _ h

theorem timestamp_le_latest (rs : List LogRecord) (r : LogRecord) (hr : r ∈ rs) :
    r.timestamp ≤ latestTimestamp rs := by
  cases rs with
  | nil => cases hr
  | cons s rest =>
    rcases List.mem_cons.mp hr with h | h
    · subst h
      exact le_foldl_intMax _ _
    · exact mem_le_foldl_intMax _ _ _ (List.mem_map_of_mem (fun t => t.timestamp) h)

theorem agentLoopGo_no_final (model : List AgentStep → ModelOutput)
    (execObservation : String → String)
    (h : ∀ trace ans, model trace ≠ ModelOutput.finalAnswer ans) :
    ∀ fuel idx trace,
      (agentLoopGo model execObservation fuel idx trace).outcome =
        RunResultKind.stepBudgetExhausted ∧
      (agentLoopGo model execObservation fuel idx trace).steps.length =
        trace.length + fuel := by
  intro fuel
  induction fuel with
  | zero => intro idx trace; exact ⟨rfl, rfl⟩
  | succ n ih =>
    intro idx trace
    simp only [agentLoopGo]
    cases hm : model trace with
    | finalAnswer t => exact absurd hm (h trace t)
    | action a =>
      have := ih (idx + 1)
        (trace ++ [{ step_index := idx, model_output := .action a,
                     observation := execObservation a, is_final := false }])
      refine ⟨this.1, ?_⟩
      rw [this.2]
      simp only [List.length_append, List.length_cons, List.length_nil]
      omega

theorem rank_threatLevel (c : Nat) :
    levelRank (threatLevel c) =
      if c = 0 then 0 else if c < 5 then 1 else if c < 20 then 2 else 3 := by
  unfold threatLevel levelRank
  split_ifs <;> simp_all

/-! ## Claim theorems -/

/-- C10: for every list of tool names, create_tools is total (it never
raises on an unrecognised name): names the registry does not resolve are
dropped with only a warning message recorded, and the returned instances
are exactly those of the recognised names, in the order given. -/
theorem create_tools_skips_unknown (toolNames : List String)
    (getTool : String → Option Tool) :
    (createTools toolNames getTool).1 = toolNames.filterMap getTool ∧
    (createTools toolNames getTool).2 =
      (toolNames.filter (fun n => (getTool n).isNone)).map
        (fun n => "Tool not found: " ++ n) := by
  unfold createTools
  rw [createTools_foldl]
  exact ⟨rfl, rfl⟩

/-- C7: the security threat level is determined solely by the total count
of matched security events through the fixed thresholds 0 is none, 1-4 is
low, 5-19 is medium, 20 and above is high; the reported analysis field is
exactly that thresholding of the total, and the mapping is monotone under
the ordering none < low < medium < high. -/
theorem threat_level_thresholds_monotone :
    (threatLevel 0 = "none" ∧
     (∀ c, 1 ≤ c → c ≤ 4 → threatLevel c = "low") ∧
     (∀ c, 5 ≤ c → c ≤ 19 → threatLevel c = "medium") ∧
     (∀ c, 20 ≤ c → threatLevel c = "high")) ∧
    (∀ records : List LogRecord,
      lookupField (securityAnalysisFields records) "threat_level" =
        some (Json.str (threatLevel (totalSecurityEvents records)))) ∧
    (∀ c1 c2 : Nat, c1 < c2 →
      levelRank (threatLevel c1) ≤ levelRank (threatLevel c2)) := by
  refine ⟨⟨rfl, ?_, ?_, ?_⟩, ?_, ?_⟩
  · intro c h1 h2
    unfold threatLevel
    rw [if_neg (by omega), if_pos (by omega)]
  · intro c h1 h2
    unfold threatLevel
    rw [if_neg (by omega), if_neg (by omega), if_pos (by omega)]
  · intro c h
    unfold threatLevel
    rw [if_neg (by omega), if_neg (by omega), if_neg (by omega)]
  · intro records
    rfl
  · intro c1 c2 h
    rw [rank_threatLevel, rank_threatLevel]
    split_ifs <;> omega

/-- Witness for C7 at concrete counts: 3 events is low, and the rank is
monotone from 2 events to 25 events. -/
theorem threat_level_thresholds_monotone_witness :
    threatLevel 3 = "low" ∧
    levelRank (threatLevel 2) ≤ levelRank (threatLevel 25) :=
  ⟨threat_level_thresholds_monotone.1.2.1 3 (by decide) (by decide),
   threat_level_thresholds_monotone.2.2 2 25 (by decide)⟩

/-- C8: when the single provider call fails, RecommendationBridge returns
the report with every structural field unchanged from the aggregator output
and devops_recommendations degraded to a single explanatory entry; the
computed analysis is never discarded. -/
theorem bridge_failure_preserves_report (report : AnalysisReport)
    (provider : String → Except String String) (e : String)
    (h : provider (buildPrompt report) = .error e) :
    (recommendationBridge report provider).summary = report.summary ∧
    (recommendationBridge report provider).analysis_window = report.analysis_window ∧
    (recommendationBridge report provider).error_analysis = report.error_analysis ∧
    (recommendationBridge report provider).security_analysis = report.security_analysis ∧
    (recommendationBridge report provider).performance_analysis = report.performance_analysis ∧
    (recommendationBridge report provider).devops_recommendations =
      ["Could not generate recommendations: " ++ e] ∧
    (recommendationBridge report provider).devops_recommendations.length = 1 := by
  unfold recommendationBridge
  rw [h]
  exact ⟨rfl, rfl, rfl, rfl, rfl, rfl, rfl⟩

/-- Witness for C8: the always-failing provider on the sample report keeps
every structural field and produces the one-element explanation. -/
theorem bridge_failure_preserves_report_witness :
    (recommendationBridge sampleReport failingProvider).summary = sampleReport.summary ∧
    (recommendationBridge sampleReport failingProvider).analysis_window = sampleReport.analysis_window ∧
    (recommendationBridge sampleReport failingProvider).error_analysis = sampleReport.error_analysis ∧
    (recommendationBridge sampleReport failingProvider).security_analysis = sampleReport.security_analysis ∧
    (recommendationBridge sampleReport failingProvider).performance_analysis = sampleReport.performance_analysis ∧
    (recommendationBridge sampleReport failingProvider).devops_recommendations =
      ["Could not generate recommendations: " ++ "rate limit"] ∧
    (recommendationBridge sampleReport failingProvider).devops_recommendations.length = 1 :=
  bridge_failure_preserves_report sampleReport failingProvider "rate limit" rfl

/-- C5: a run whose model never emits a final-answer marker terminates with
the step-budget-exhausted marker (distinguishable by construction from a
final answer) and a trace of length exactly maxSteps. -/
theorem step_budget_exhaustion (model : List AgentStep → ModelOutput)
    (execObservation : String → String) (maxSteps : Nat)
    (h : ∀ trace ans, model trace ≠ ModelOutput.finalAnswer ans) :
    (runAgentLoop model execObservation maxSteps).outcome =
      RunResultKind.stepBudgetExhausted ∧
    (runAgentLoop model execObservation maxSteps).steps.length = maxSteps := by
  have := agentLoopGo_no_final model execObservation h maxSteps 0 []
  simpa [runAgentLoop] using this

/-- Witness for C5: the always-acting model with a budget of 3 ends
exhausted with exactly 3 steps. -/
theorem step_budget_exhaustion_witness :
    (runAgentLoop alwaysActionModel constObservation 3).outcome =
      RunResultKind.stepBudgetExhausted ∧
    (runAgentLoop alwaysActionModel constObservation 3).steps.length = 3 :=
  step_budget_exhaustion alwaysActionModel constObservation 3
    (fun _ _ h => ModelOutput.noConfusion h)

/-- C6: for every raw input and window of positive length, every record the
aggregator retains has its timestamp within the trailing window ending at
the latest timestamp observed in the full parsed input (not wall-clock
now) — and that reference point is indeed an upper bound for the whole
input. -/
theorem window_bounds (parseLine : String → String → Option LogRecord)
    (logType raw : String) (windowMinutes : Nat) (hw : 0 < windowMinutes) :
    (∀ r ∈ parsedRecords parseLine logType raw,
      r.timestamp ≤ latestTimestamp (parsedRecords parseLine logType raw)) ∧
    (∀ r ∈ aggregatorRecords parseLine logType raw windowMinutes,
      latestTimestamp (parsedRecords parseLine logType raw) -
        (windowMinutes : Int) * 60 ≤ r.timestamp ∧
      r.timestamp ≤ latestTimestamp (parsedRecords parseLine logType raw)) := by
  constructor
  · intro r hr
    exact timestamp_le_latest _ _ hr
  · intro r hr
    unfold aggregatorRecords extractWindow at hr
    obtain ⟨hmem, hcond⟩ := List.mem_filter.mp hr
    simp only [Bool.and_eq_true, decide_eq_true_eq] at hcond
    exact hcond

/-- A record retained by the sample pipeline input, for the C6 witness. -/
def sampleWindowRecord : LogRecord :=
  { timestamp := 100, source_format := "nginx", raw := "404,100",
    status_code := some 404, client_identifier := none }

/-- Witness for C6 on the sample input with a 1-minute window: the retained
record with timestamp 100 lies within [latest - 60, latest]. -/
theorem window_bounds_witness :
    latestTimestamp (parsedRecords sampleParseLine "nginx" "200,120\n404,100\nbad") -
      ((1 : Nat) : Int) * 60 ≤ sampleWindowRecord.timestamp ∧
    sampleWindowRecord.timestamp ≤
      latestTimestamp (parsedRecords sampleParseLine "nginx" "200,120\n404,100\nbad") :=
  (window_bounds sampleParseLine "nginx" "200,120\n404,100\nbad" 1 (by decide)).2
    sampleWindowRecord (by decide)

/-- C2: whenever run_agent is given a non-empty tools list (and a model
type valid enough for execution to reach agent construction), the agent
constructed is the ToolCallingAgent regardless of the requested agent type,
and the selection does not depend on anything the agent loop later does —
it is fixed before the loop starts. -/
theorem run_agent_tool_autoselect (modelType agentType : String)
    (toolNames : List String) (execute : Bool) (getTool : String → Option Tool)
    (agentRun agentRun2 : AgentKind → Except String String)
    (hm : validModelType modelType = true) (ht : toolNames ≠ []) :
    (runAgent modelType agentType toolNames execute getTool agentRun).builtAgent =
      some AgentKind.toolCallingAgent ∧
    (runAgent modelType agentType toolNames execute getTool agentRun).builtAgent =
      (runAgent modelType agentType toolNames execute getTool agentRun2).builtAgent := by
  have h1 : (pyLower "tool" == "code") = false := by decide
  have h2 : (pyLower "tool" == "tool") = true := by decide
  unfold runAgent effectiveAgentType
  rw [hm]
  simp only [ht, ne_eq, not_false_iff, if_true, Bool.not_true, h1, h2,
    Bool.false_eq_true, if_false]
  cases agentRun AgentKind.toolCallingAgent <;>
    cases agentRun2 AgentKind.toolCallingAgent <;> exact ⟨rfl, rfl⟩

/-- Witness for C2: requesting the code agent type together with the
parse_logs tool still constructs the ToolCallingAgent, for both run
stubs. -/
theorem run_agent_tool_autoselect_witness :
    (runAgent "openai" "code" ["parse_logs"] false sampleGetTool okAgentRun).builtAgent =
      some AgentKind.toolCallingAgent ∧
    (runAgent "openai" "code" ["parse_logs"] false sampleGetTool okAgentRun).builtAgent =
      (runAgent "openai" "code" ["parse_logs"] false sampleGetTool failAgentRun).builtAgent :=
  run_agent_tool_autoselect "openai" "code" ["parse_logs"] false sampleGetTool
    okAgentRun failAgentRun (by decide) (by decide)

/-- C3: a run_agent call with execute left false and effective agent type
code constructs the LocalPythonExecutor with dry_run true; an executor so
constructed answers every execute call with the preview result — no stdout
is captured and the result is independent of what actually interpreting the
code would produce — and, the structure being immutable, the mode is fixed
for the instance's lifetime. -/
theorem dry_run_executor_safe (modelType agentType : String)
    (getTool : String → Option Tool) (agentRun : AgentKind → Except String String)
    (hm : validModelType modelType = true) (hc : pyLower agentType = "code") :
    (runAgent modelType agentType [] false getTool agentRun).builtExecutor =
      some { dry_run := true } ∧
    (∀ codeText runPython,
      executorExecute { dry_run := true } codeText runPython =
        { status := "preview, code was not run", stdout := none, result := codeText }) ∧
    (∀ codeText runPython1 runPython2,
      executorExecute { dry_run := true } codeText runPython1 =
        executorExecute { dry_run := true } codeText runPython2) := by
  refine ⟨?_, fun codeText runPython => rfl, fun codeText r1 r2 => rfl⟩
  unfold runAgent
  rw [hm]
  have hb : (pyLower (effectiveAgentType agentType []) == "code") = true := by
    simp [effectiveAgentType, hc]
  rw [hb]
  cases agentRun AgentKind.codeAgent <;> rfl

/-- Witness for C3: the default invocation with agent type code and no
tools builds a dry-run executor, and that executor previews print(1)
without capturing stdout. -/
theorem dry_run_executor_safe_witness :
    (runAgent "openai" "code" [] false sampleGetTool okAgentRun).builtExecutor =
      some { dry_run := true } ∧
    executorExecute { dry_run := true } "print(1)" (fun _ => "1") =
      { status := "preview, code was not run", stdout := none, result := "print(1)" } :=
  ⟨(dry_run_executor_safe "openai" "code" sampleGetTool okAgentRun (by decide) (by decide)).1,
   (dry_run_executor_safe "openai" "code" sampleGetTool okAgentRun (by decide) (by decide)).2.1
     "print(1)" (fun _ => "1")⟩

/-- C4: an unknown model type (case-insensitively outside the five
providers) or an unknown effective agent type fails fast — the error names
the offending value and the agent loop (hence any model call) is never
entered; every failure escaping the run is caught and reported as exit
code 1 with the message printed, and a run that completes exits 0 with no
error printed. -/
theorem cli_error_handling (modelType agentType : String)
    (toolNames : List String) (execute : Bool) (getTool : String → Option Tool)
    (agentRun : AgentKind → Except String String) :
    (validModelType modelType = false →
      runAgent modelType agentType toolNames execute getTool agentRun =
        { exitCode := 1,
          printedError := some ("Error: Unknown model type: " ++ modelType),
          modelCalled := false, builtAgent := none, builtExecutor := none }) ∧
    (validModelType modelType = true →
      pyLower (effectiveAgentType agentType toolNames) ≠ "code" →
      pyLower (effectiveAgentType agentType toolNames) ≠ "tool" →
      pyLower (effectiveAgentType agentType toolNames) ≠ "triage" →
      runAgent modelType agentType toolNames execute getTool agentRun =
        { exitCode := 1,
          printedError := some ("Error: Unknown agent type: " ++
            effectiveAgentType agentType toolNames),
          modelCalled := false, builtAgent := none, builtExecutor := none }) ∧
    (((runAgent modelType agentType toolNames execute getTool agentRun).exitCode = 0 ∧
      (runAgent modelType agentType toolNames execute getTool agentRun).printedError = none) ∨
     ((runAgent modelType agentType toolNames execute getTool agentRun).exitCode = 1 ∧
      ∃ msg, (runAgent modelType agentType toolNames execute getTool agentRun).printedError =
        some ("Error: " ++ msg))) ∧
    (validModelType modelType = true →
      (∀ kind, ∃ r, agentRun kind = .ok r) →
      (pyLower (effectiveAgentType agentType toolNames) = "code" ∨
       pyLower (effectiveAgentType agentType toolNames) = "tool" ∨
       pyLower (effectiveAgentType agentType toolNames) = "triage") →
      (runAgent modelType agentType toolNames execute getTool agentRun).exitCode = 0 ∧
      (runAgent modelType agentType toolNames execute getTool agentRun).printedError = none) := by
  refine ⟨?_, ?_, ?_, ?_⟩
  · intro hm
    unfold runAgent
    rw [hm]
    rfl
  · intro hm h1 h2 h3
    unfold runAgent
    rw [hm]
    have hb1 : (pyLower (effectiveAgentType agentType toolNames) == "code") = false := by
      simpa using h1
    have hb2 : (pyLower (effectiveAgentType agentType toolNames) == "tool") = false := by
      simpa using h2
    have hb3 : (pyLower (effectiveAgentType agentType toolNames) == "triage") = false := by
      simpa using h3
    rw [hb1, hb2, hb3]
    rfl
  · unfold runAgent
    cases hm : validModelType modelType with
    | false =>
      exact Or.inr ⟨rfl, "Unknown model type: " ++ modelType, rfl⟩
    | true =>
      cases hb1 : pyLower (effectiveAgentType agentType toolNames) == "code" with
      | true =>
        cases agentRun AgentKind.codeAgent with
        | ok r => exact Or.inl ⟨rfl, rfl⟩
        | error e => exact Or.inr ⟨rfl, e, rfl⟩
      | false =>
        cases hb2 : pyLower (effectiveAgentType agentType toolNames) == "tool" with
        | true =>
          cases agentRun AgentKind.toolCallingAgent with
          | ok r => exact Or.inl ⟨rfl, rfl⟩
          | error e => exact Or.inr ⟨rfl, e, rfl⟩
        | false =>
          cases hb3 : pyLower (effectiveAgentType agentType toolNames) == "triage" with
          | true =>
            cases agentRun AgentKind.triageAgent with
            | ok r => exact Or.inl ⟨rfl, rfl⟩
            | error e => exact Or.inr ⟨rfl, e, rfl⟩
          | false =>
            exact Or.inr ⟨rfl, "Unknown agent type: " ++
              effectiveAgentType agentType toolNames, rfl⟩
  · intro hm hok hvalid
    unfold runAgent
    rw [hm]
    cases hb1 : pyLower (effectiveAgentType agentType toolNames) == "code" with
    | true =>
      obtain ⟨r, hr⟩ := hok AgentKind.codeAgent
      rw [hr]
      exact ⟨rfl, rfl⟩
    | false =>
      cases hb2 : pyLower (effectiveAgentType agentType toolNames) == "tool" with
      | true =>
        obtain ⟨r, hr⟩ := hok AgentKind.toolCallingAgent
        rw [hr]
        exact ⟨rfl, rfl⟩
      | false =>
        cases hb3 : pyLower (effectiveAgentType agentType toolNames) == "triage" with
        | true =>
          obtain ⟨r, hr⟩ := hok AgentKind.triageAgent
          rw [hr]
          exact ⟨rfl, rfl⟩
        | false =>
          exfalso
          rcases hvalid with h | h | h
          · exact absurd (by simp [h] : (pyLower (effectiveAgentType agentType toolNames) == "code") = true) (by simp [hb1])
          · exact absurd (by simp [h] : (pyLower (effectiveAgentType agentType toolNames) == "tool") = true) (by simp [hb2])
          · exact absurd (by simp [h] : (pyLower (effectiveAgentType agentType toolNames) == "triage") = true) (by simp [hb3])

/-- Witness for C4: the unknown model type gpt5 fails fast with the naming
error; the unknown agent type chat (with a valid model type) fails fast
likewise; a fully valid invocation with a succeeding run exits 0. -/
theorem cli_error_handling_witness :
    runAgent "gpt5" "code" [] false sampleGetTool okAgentRun =
      { exitCode := 1, printedError := some ("Error: Unknown model type: " ++ "gpt5"),
        modelCalled := false, builtAgent := none, builtExecutor := none } ∧
    runAgent "openai" "chat" [] false sampleGetTool okAgentRun =
      { exitCode := 1,
        printedError := some ("Error: Unknown agent type: " ++ effectiveAgentType "chat" []),
        modelCalled := false, builtAgent := none, builtExecutor := none } ∧
    (runAgent "openai" "tool" ["web_search"] false sampleGetTool okAgentRun).exitCode = 0 ∧
    (runAgent "openai" "tool" ["web_search"] false sampleGetTool okAgentRun).printedError = none :=
  ⟨(cli_error_handling "gpt5" "code" [] false sampleGetTool okAgentRun).1 (by decide),
   (cli_error_handling "openai" "chat" [] false sampleGetTool okAgentRun).2.1
     (by decide) (by decide) (by decide) (by decide),
   (cli_error_handling "openai" "tool" ["web_search"] false sampleGetTool okAgentRun).2.2.2
     (by decide) (fun kind => ⟨"done", rfl⟩) (Or.inr (Or.inl (by decide)))⟩

theorem range_map_resuffix (l : List (List Char)) :
    (List.range l.length).map (fun i =>
      if i = l.length - 1 then l.getD i [] else l.getD i [] ++ ['.']) =
    resuffixSentences l := by
  induction l with
  | nil => rfl
  | cons s rest ih =>
    cases rest with
    | nil => rfl
    | cons s2 rest2 =>
      have hlen : (s :: s2 :: rest2).length = (s2 :: rest2).length + 1 := rfl
      rw [hlen, List.range_succ_eq_map, List.map_cons, List.map_map]
      have hstep : ((fun i =>
          if i = (s2 :: rest2).length + 1 - 1 then (s :: s2 :: rest2).getD i []
          else (s :: s2 :: rest2).getD i [] ++ ['.']) ∘ Nat.succ) =
          (fun i => if i = (s2 :: rest2).length - 1 then (s2 :: rest2).getD i []
            else (s2 :: rest2).getD i [] ++ ['.']) := by
        funext i
        simp only [Function.comp_apply, List.getD_cons_succ]
        exact if_congr (by simp only [List.length_cons]; omega) rfl rfl
      rw [hstep, ih]
      rfl

theorem filter_length_eq_zero_iff {α : Type} (l : List α) (p : α → Bool) :
    (l.filter p).length = 0 ↔ l.any p = false := by
  simp [List.length_eq_zero, List.filter_eq_nil_iff, List.any_eq_false]

/-- C9: _format_final_answer returns an empty answer unchanged; a non-empty
answer takes the numbered-list path exactly when both the one-dot and
two-dot substrings occur in it, and otherwise is split at every dot-space
occurrence into one sentence per output line with each non-final sentence
re-suffixed with a dot, the joined result finally passing through the
blank-run collapse. -/
theorem format_final_answer_spec :
    formatFinalAnswer "" = "" ∧
    (∀ answer : String, answer ≠ "" →
      (listContainsSub ['1', '.'] answer.data &&
       listContainsSub ['2', '.'] answer.data) = true →
      formatFinalAnswer answer =
        { data := pyCollapse (joinLines (numberedLines answer.data)) }) ∧
    (∀ answer : String, answer ≠ "" →
      (listContainsSub ['1', '.'] answer.data &&
       listContainsSub ['2', '.'] answer.data) = false →
      formatFinalAnswer answer =
        { data := pyCollapse (joinLines (resuffixSentences
            (pySplitList ['.', ' '] answer.data))) }) := by
  refine ⟨rfl, ?_, ?_⟩
  · intro answer h1 h2
    unfold formatFinalAnswer
    rw [if_neg h1, h2]
    rfl
  · intro answer h1 h2
    unfold formatFinalAnswer
    rw [if_neg h1, h2,
      show sentenceLinesPy answer.data =
        resuffixSentences (pySplitList ['.', ' '] answer.data) from
        range_map_resuffix (pySplitList ['.', ' '] answer.data)]
    rfl

/-- Witness for C9: the sentence path on a two-sentence answer and the
numbered path on a two-item list, with the substring conditions decided at
the concrete inputs. -/
theorem format_final_answer_spec_witness :
    formatFinalAnswer "Go. Stop" =
      { data := pyCollapse (joinLines (resuffixSentences
          (pySplitList ['.', ' '] "Go. Stop".data))) } ∧
    formatFinalAnswer "1. alpha 2. beta" =
      { data := pyCollapse (joinLines (numberedLines "1. alpha 2. beta".data)) } :=
  ⟨format_final_answer_spec.2.2 "Go. Stop" (by decide) (by decide),
   format_final_answer_spec.2.1 "1. alpha 2. beta" (by decide) (by decide)⟩

/-- C1: every successful parse_logs.execute call returns a JSON object
whose top-level keys are exactly summary, analysis_window, error_analysis,
security_analysis, performance_analysis, devops_recommendations, with the
recommendations an ordered sequence of strings; the rate keys appear inside
error_analysis exactly when some analysed record carries an HTTP status
code, and a message placeholder replaces them otherwise. -/
theorem parse_logs_json_shape (parseLine : String → String → Option LogRecord)
    (raw : String) (windowMinutes : Nat) (logType : String)
    (provider : String → Except String String) (kvs : List (String × Json))
    (h : parseLogsExecute parseLine raw windowMinutes logType provider = .ok kvs) :
    kvs.map Prod.fst =
      ["summary", "analysis_window", "error_analysis", "security_analysis",
       "performance_analysis", "devops_recommendations"] ∧
    (∃ recs : List String,
      lookupField kvs "devops_recommendations" = some (Json.arr (recs.map Json.str))) ∧
    (∃ errFields : List (String × Json),
      lookupField kvs "error_analysis" = some (Json.obj errFields) ∧
      ((aggregatorRecords parseLine logType raw windowMinutes).any
          (fun r => r.status_code.isSome) = true →
        errFields.map Prod.fst =
          ["error_4xx", "error_5xx", "error_4xx_rate", "error_5xx_rate"]) ∧
      ((aggregatorRecords parseLine logType raw windowMinutes).any
          (fun r => r.status_code.isSome) = false →
        errFields.map Prod.fst = ["message"])) := by
  unfold parseLogsExecute at h
  cases he : (parsedRecords parseLine logType raw).isEmpty with
  | true =>
    rw [he] at h
    simp at h
  | false =>
    rw [he] at h
    simp only [Bool.false_eq_true, if_false, Except.ok.injEq] at h
    subst h
    cases hp : provider (buildPrompt (buildStructuralReport
        (aggregatorRecords parseLine logType raw windowMinutes) windowMinutes)) with
    | ok response =>
      refine ⟨?_, ?_, errorAnalysisFields
          (aggregatorRecords parseLine logType raw windowMinutes), ?_, ?_, ?_⟩
      · rfl
      · exact ⟨splitRecommendations response, by
          unfold recommendationBridge
          rw [hp]
          rfl⟩
      · unfold recommendationBridge
        rw [hp]
        rfl
      · intro hs
        unfold errorAnalysisFields
        rw [if_neg (fun hzero => by
          rw [(filter_length_eq_zero_iff _ _).mp hzero] at hs
          exact Bool.noConfusion hs)]
        rfl
      · intro hs
        unfold errorAnalysisFields
        rw [if_pos ((filter_length_eq_zero_iff _ _).mpr hs)]
        rfl
    | error e =>
      refine ⟨?_, ?_, errorAnalysisFields
          (aggregatorRecords parseLine logType raw windowMinutes), ?_, ?_, ?_⟩
      · rfl
      · exact ⟨["Could not generate recommendations: " ++ e], by
          unfold recommendationBridge
          rw [hp]
          rfl⟩
      · unfold recommendationBridge
        rw [hp]
        rfl
      · intro hs
        unfold errorAnalysisFields
        rw [if_neg (fun hzero => by
          rw [(filter_length_eq_zero_iff _ _).mp hzero] at hs
          exact Bool.noConfusion hs)]
        rfl
      · intro hs
        unfold errorAnalysisFields
        rw [if_pos ((filter_length_eq_zero_iff _ _).mpr hs)]
        rfl

/-- Witness for C1: the sample input (two status-bearing lines and one
unparsable line) under the failing provider succeeds with exactly the six
top-level keys and the four rate-bearing error keys. -/
theorem parse_logs_json_shape_witness :
    ∃ kvs, parseLogsExecute sampleParseLine "200,120\n404,100\nbad" 600 "nginx"
        failingProvider = .ok kvs ∧
      kvs.map Prod.fst =
        ["summary", "analysis_window", "error_analysis", "security_analysis",
         "performance_analysis", "devops_recommendations"] ∧
      (∃ errFields : List (String × Json),
        lookupField kvs "error_analysis" = some (Json.obj errFields) ∧
        errFields.map Prod.fst =
          ["error_4xx", "error_5xx", "error_4xx_rate", "error_5xx_rate"]) := by
  refine ⟨_, rfl, ?_, ?_⟩
  · exact (parse_logs_json_shape sampleParseLine "200,120\n404,100\nbad" 600 "nginx"
      failingProvider _ rfl).1
  · obtain ⟨errFields, hl, hpos, hneg⟩ :=
      (parse_logs_json_shape sampleParseLine "200,120\n404,100\nbad" 600 "nginx"
        failingProvider _ rfl).2.2
    exact ⟨errFields, hl, hpos (by decide)⟩

end IAgent
